import Mathlib

/-!
Shallow embedding of `src/main.py`, a FastAPI + SQLite chat backend.

The SQLite database is modelled as lists of rows kept in rowid (insertion)
order, with AUTOINCREMENT counters carried explicitly.  SQL `SELECT ...
WHERE` with `fetchone` becomes `List.find?`; `ORDER BY key ASC` over a
table scan becomes the stable `List.mergeSort` on the rowid-ordered list;
`INSERT OR IGNORE` becomes a conditional append guarded by the table's
uniqueness constraints.  The Firebase push call `messaging.send` and the
SHA-256 password hash are external effects, modelled as function
parameters (`send`, `hashfn`); the `try/except` around each push send
becomes an `Except` result.  Endpoint handlers are pure functions from the
request model and database state to a response envelope and the new state.
-/

namespace ChatApp

/-- Row of `chat_rooms`: `id INTEGER PRIMARY KEY`, `name TEXT NOT NULL UNIQUE`. -/
structure RoomRow where
  id : Int
  name : String
  deriving DecidableEq, Repr

/-- Row of `users`: `id`, `username TEXT UNIQUE`, `password TEXT`. -/
structure UserRow where
  id : Int
  username : String
  password : String
  deriving DecidableEq, Repr

/-- Row of `push_tokens`: `id`, `user_id INTEGER`, `token TEXT`. -/
structure TokenRow where
  id : Int
  user_id : Int
  token : String
  deriving DecidableEq, Repr

/-- Row of `messages`: `id`, `room_id`, `sender_id`, `sender_name`, `message`,
`timestamp` (assigned by `DEFAULT CURRENT_TIMESTAMP`; an abstract instant). -/
structure MessageRow where
  id : Int
  room_id : Int
  sender_id : Int
  sender_name : String
  message : String
  timestamp : Nat
  deriving DecidableEq, Repr

/-- The SQLite database `chat_app.db`: each table as a list of rows in rowid
order, plus the AUTOINCREMENT counters for the tables the app inserts into. -/
structure DB where
  chat_rooms : List RoomRow
  users : List UserRow
  push_tokens : List TokenRow
  messages : List MessageRow
  next_user_id : Int
  next_token_id : Int
  next_message_id : Int
  deriving DecidableEq, Repr

/-- Request body `UserModel`. -/
structure UserModel where
  username : String
  password : String
  deriving DecidableEq, Repr

/-- Request body `PushTokenModel`. -/
structure PushTokenModel where
  user_id : Int
  token : String
  deriving DecidableEq, Repr

/-- Request body `MessageModel`. -/
structure MessageModel where
  sender_id : Int
  sender_name : String
  message : String
  room_id : Int
  deriving DecidableEq, Repr

/-- A constructed `messaging.Message`: notification title and body plus the
destination token. -/
structure FCMMessage where
  title : String
  body : String
  token : String
  deriving DecidableEq, Repr

/-- One entry of the `notifications` list built in `send_message_and_notify`:
either `{token, response}` on success or `{token, error}` when the send
raised. -/
inductive NotificationOutcome where
  | success (token : String) (response : String)
  | failure (token : String) (error : String)
  deriving DecidableEq, Repr

/-- The token an outcome entry was recorded for. -/
def NotificationOutcome.token : NotificationOutcome → String
  | .success t _ => t
  | .failure t _ => t

/-- A JSON value, for the rendered response bodies. -/
inductive JValue where
  | null
  | num (n : Int)
  | str (s : String)
  | arr (xs : List JValue)
  | obj (fields : List (String × JValue))

/-- The `data` payloads the handlers put in the envelope. -/
inductive RespData where
  | null
  | userInfo (user_id : Int) (username : String)
  | notifications (xs : List NotificationOutcome)
  | rooms (xs : List (Int × String))
  | msgs (xs : List (Int × String × String × Nat))
  deriving DecidableEq, Repr

/-- A handler response before JSON rendering. -/
structure Resp where
  status : Int
  msg : String
  data : RespData
  deriving DecidableEq, Repr

/-- Translation of `unified_response` (main.py line 102): the uniform
envelope; call sites that omit `data` pass `RespData.null` (Python `None`). -/
def unified_response (status : Int) (msg : String) (data : RespData) : Resp :=
  ⟨status, msg, data⟩

/-- Translation of `create_db` (main.py lines 33-72).  `CREATE TABLE IF NOT
EXISTS` leaves existing tables as they are (a fresh database file is a `DB`
whose lists are all empty); the only data statement is
`INSERT OR IGNORE INTO chat_rooms (id, name) VALUES ...` for the three seed
rows, where a seed is ignored exactly when an existing row conflicts with the
`id` primary key or the `UNIQUE` name constraint. -/
def roomConflict (rooms : List RoomRow) (r : RoomRow) : Bool :=
  rooms.any (fun x => x.id == r.id || x.name == r.name)

/-- One `INSERT OR IGNORE INTO chat_rooms` of a single row. -/
def insertOrIgnore (rooms : List RoomRow) (r : RoomRow) : List RoomRow :=
  if roomConflict rooms r then rooms else rooms ++ [r]

/-- The three seed rows of main.py line 44. -/
def seedRooms : List RoomRow :=
  [⟨1, "General"⟩, ⟨2, "Technology"⟩, ⟨3, "Random"⟩]

/-- The state transition of `create_db`: seed `chat_rooms`, leave the other
tables untouched. -/
def create_db (db : DB) : DB :=
  { db with chat_rooms := seedRooms.foldl insertOrIgnore db.chat_rooms }

/-- Translation of `register` (main.py lines 107-123).  `hashfn` stands for
`hash_password`, the SHA-256 hex digest, opaque to this model. -/
def register (hashfn : String → String) (db : DB) (user : UserModel) :
    Resp × DB :=
  match db.users.find? (fun r => r.username == user.username) with
  | some _ => (unified_response 1 "Username already exists" .null, db)
  | none =>
    (unified_response 0 "User registered successfully" .null,
      { db with
        users := db.users ++ [⟨db.next_user_id, user.username, hashfn user.password⟩],
        next_user_id := db.next_user_id + 1 })

/-- Translation of `login` (main.py lines 126-143); it never writes. -/
def login (hashfn : String → String) (db : DB) (user : UserModel) : Resp :=
  match db.users.find? (fun r => r.username == user.username) with
  | none => unified_response 1 "Invalid username or password" .null
  | some existing_user =>
    if existing_user.password ≠ hashfn user.password then
      unified_response 1 "Invalid username or password" .null
    else
      unified_response 0 "Login successful"
        (.userInfo existing_user.id existing_user.username)

/-- Translation of `submit_push_token` (main.py lines 146-161): look the token
up first; insert only when absent; both paths answer status 0. -/
def submit_push_token (db : DB) (push_token : PushTokenModel) : Resp × DB :=
  match db.push_tokens.find? (fun r => r.token == push_token.token) with
  | some _ => (unified_response 0 "Token already exists" .null, db)
  | none =>
    (unified_response 0 "Token stored successfully" .null,
      { db with
        push_tokens :=
          db.push_tokens ++ [⟨db.next_token_id, push_token.user_id, push_token.token⟩],
        next_token_id := db.next_token_id + 1 })

/-- The `messaging.Message` built for one token in the loop of main.py lines
192-198: title `f"{room[1]}: {message.sender_name}"`, body the message text. -/
def mkNotification (room : RoomRow) (message : MessageModel) (token : String) :
    FCMMessage :=
  ⟨room.name ++ ": " ++ message.sender_name, message.message, token⟩

/-- One iteration of the try/except send loop (main.py lines 190-202). -/
def dispatchOne (send : FCMMessage → Except String String) (fcm : FCMMessage) :
    NotificationOutcome :=
  match send fcm with
  | .ok response => .success fcm.token response
  | .error e => .failure fcm.token e

/-- Translation of `send_message_and_notify` (main.py lines 164-205).
`send` is `messaging.send` (the external Firebase call; `.error` is a raised
exception caught by the `except` branch) and `now` is `CURRENT_TIMESTAMP` at
insert time.  Returns the response, the new database state, and the trace of
`messaging.Message` values constructed for dispatch, in loop order. -/
def send_message_and_notify (send : FCMMessage → Except String String)
    (now : Nat) (db : DB) (message : MessageModel) :
    Resp × DB × List FCMMessage :=
  match db.chat_rooms.find? (fun r => r.id == message.room_id) with
  | none => (unified_response 1 "Invalid room ID" .null, db, [])
  | some room =>
    let db' : DB :=
      { db with
        messages := db.messages ++
          [⟨db.next_message_id, message.room_id, message.sender_id,
            message.sender_name, message.message, now⟩],
        next_message_id := db.next_message_id + 1 }
    let tokens := db'.push_tokens.map (fun t => t.token)
    let attempts := tokens.map (mkNotification room message)
    let notifications := attempts.map (dispatchOne send)
    (unified_response 0 "Message sent and notifications processed"
      (.notifications notifications), db', attempts)

/-- Translation of `get_chat_rooms` (main.py lines 207-220):
`ORDER BY id ASC`, error envelope when the table is empty. -/
def get_chat_rooms (db : DB) : Resp :=
  let rooms := db.chat_rooms.mergeSort (fun a b => decide (a.id ≤ b.id))
  if rooms.isEmpty then unified_response 1 "No chat rooms found" .null
  else
    unified_response 0 "Chat rooms retrieved successfully"
      (.rooms (rooms.map (fun r => (r.id, r.name))))

/-- The query of main.py lines 235-238: rows of the room, `ORDER BY timestamp
ASC`.  SQLite scans the table in rowid order and its merge sorter keeps tied
rows in scan order, so the query is the stable `mergeSort` on timestamps of
the rowid-ordered list. -/
def messagesQuery (db : DB) (room_id : Int) : List MessageRow :=
  (db.messages.filter (fun m => m.room_id == room_id)).mergeSort
    (fun a b => decide (a.timestamp ≤ b.timestamp))

/-- The projection of main.py lines 242-245: the four selected columns. -/
def MessageRow.view (m : MessageRow) : Int × String × String × Nat :=
  (m.sender_id, m.sender_name, m.message, m.timestamp)

/-- Translation of `get_messages` (main.py lines 222-248); it never writes. -/
def get_messages (db : DB) (room_id : Int) : Resp :=
  match db.chat_rooms.find? (fun r => r.id == room_id) with
  | none => unified_response 1 "Invalid room ID" .null
  | some room =>
    unified_response 0 ("Messages retrieved successfully from " ++ room.name)
      (.msgs ((messagesQuery db room_id).map MessageRow.view))

/-- Translation of `get_demo` (main.py lines 250-254): a bare JSON object,
not the uniform envelope; `today` renders `date.today()`. -/
def get_demo (a b : Int) (today : String) : JValue :=
  .obj [("sum", .num (a + b)), ("date", .str today)]

/-- JSON rendering of one notifications-list entry (main.py lines 200-202). -/
def encodeOutcome : NotificationOutcome → JValue
  | .success t r => .obj [("token", .str t), ("response", .str r)]
  | .failure t e => .obj [("token", .str t), ("error", .str e)]

/-- JSON rendering of the `data` payloads as the handlers shape them. -/
def encodeData : RespData → JValue
  | .null => .null
  | .userInfo uid uname =>
    .obj [("user_id", .num uid), ("username", .str uname)]
  | .notifications xs => .obj [("notifications", .arr (xs.map encodeOutcome))]
  | .rooms xs =>
    .arr (xs.map (fun r => .obj [("room_id", .num r.1), ("name", .str r.2)]))
  | .msgs xs =>
    .arr (xs.map (fun m =>
      .obj [("sender_id", .num m.1), ("sender_name", .str m.2.1),
        ("message", .str m.2.2.1), ("timestamp", .num (m.2.2.2 : Int))]))

/-- JSON rendering of an envelope response. -/
def Resp.toJson (r : Resp) : JValue :=
  .obj [("status", .num r.status), ("msg", .str r.msg),
    ("data", encodeData r.data)]

/-- Whether a JSON body has the uniform envelope shape
`\x7bstatus: 0|1, msg: string, data: any\x7d`. -/
def isEnvelope : JValue → Bool
  | .obj [(k1, .num s), (k2, .str _), (k3, _)] =>
    k1 == "status" && k2 == "msg" && k3 == "data" && (s == 0 || s == 1)
  | _ => false

/-! Concrete fixtures used by the witnesses. -/

/-- A push service that always raises: every send is caught as a failure. -/
def errSend : FCMMessage → Except String String :=
  fun _ => Except.error ("UnregisteredError")

/-- A push service that always succeeds with a fixed provider receipt. -/
def okSend : FCMMessage → Except String String :=
  fun _ => Except.ok ("projects/demo/messages/1")

/-- A database with one room, one user, two registered tokens, no messages. -/
def baseDB : DB :=
  ⟨[⟨1, "General"⟩], [⟨1, "alice", "hash1"⟩], [⟨1, 1, "t1"⟩, ⟨2, 2, "t2"⟩],
    [], 2, 3, 1⟩

/-- A submit request aimed at the absent room 99. -/
def msgTo99 : MessageModel := ⟨1, "alice", "hi", 99⟩

/-- A submit request aimed at the existing room 1. -/
def msgTo1 : MessageModel := ⟨1, "alice", "hi", 1⟩

/-! Helper lemmas. -/

/-- A dispatch outcome is always recorded for the token it was built for. -/
theorem dispatchOne_token (send : FCMMessage → Except String String)
    (fcm : FCMMessage) : (dispatchOne send fcm).token = fcm.token := by
  unfold dispatchOne
  cases send fcm <;> rfl

/-- C1: a submit whose room_id matches no chat_rooms row gets the
"Invalid room ID" envelope with status 1 and null data, the database
(in particular the messages table) is unchanged, and no notification is
constructed or dispatched. -/
theorem invalidRoom_rejects_and_preserves
    (send : FCMMessage → Except String String) (now : Nat) (db : DB)
    (m : MessageModel) (h : ∀ r ∈ db.chat_rooms, r.id ≠ m.room_id) :
    (send_message_and_notify send now db m).1 =
      unified_response 1 "Invalid room ID" .null ∧
    (send_message_and_notify send now db m).2.1 = db ∧
    (send_message_and_notify send now db m).2.1.messages = db.messages ∧
    (send_message_and_notify send now db m).2.2 = [] := by
  have hf : db.chat_rooms.find? (fun r => r.id == m.room_id) = none := by
    rw [List.find?_eq_none]
    intro r hr
    simpa using h r hr
  simp [send_message_and_notify, hf]

/-- Witness for C1 at a concrete database and request. -/
theorem invalidRoom_rejects_and_preserves_witness :
    (send_message_and_notify errSend 0 baseDB msgTo99).1 =
      unified_response 1 "Invalid room ID" .null ∧
    (send_message_and_notify errSend 0 baseDB msgTo99).2.1 = baseDB ∧
    (send_message_and_notify errSend 0 baseDB msgTo99).2.1.messages =
      baseDB.messages ∧
    (send_message_and_notify errSend 0 baseDB msgTo99).2.2 = [] :=
  invalidRoom_rejects_and_preserves errSend 0 baseDB msgTo99 (by decide)

/-- C4: with a valid room the envelope status is 0 for every push-service
behaviour; per-token failures never change the overall result. -/
theorem validRoom_overall_success
    (send : FCMMessage → Except String String) (now : Nat) (db : DB)
    (m : MessageModel) (room : RoomRow)
    (h : db.chat_rooms.find? (fun r => r.id == m.room_id) = some room) :
    (send_message_and_notify send now db m).1.status = 0 := by
  simp [send_message_and_notify, h, unified_response]

/-- Witness for C4: valid room, every send failing, status still 0. -/
theorem validRoom_overall_success_witness :
    (send_message_and_notify errSend 0 baseDB msgTo1).1.status = 0 :=
  validRoom_overall_success errSend 0 baseDB msgTo1 ⟨1, "General"⟩ (by decide)

/-- C2: with a valid room the notifications list has exactly one entry per
push_tokens row, in enumeration order (the projected tokens agree
position-wise), and each entry is a success or a failure for its token; this
holds for every push-service behaviour, so one token's failure never
suppresses a later token's entry. -/
theorem fanout_one_outcome_per_token
    (send : FCMMessage → Except String String) (now : Nat) (db : DB)
    (m : MessageModel) (room : RoomRow)
    (h : db.chat_rooms.find? (fun r => r.id == m.room_id) = some room) :
    ∃ ns, (send_message_and_notify send now db m).1.data =
        RespData.notifications ns ∧
      ns.length = db.push_tokens.length ∧
      ns.map NotificationOutcome.token = db.push_tokens.map TokenRow.token ∧
      ∀ o ∈ ns, (∃ r, o = .success o.token r) ∨ (∃ e, o = .failure o.token e) := by
  refine ⟨db.push_tokens.map
    (fun t => dispatchOne send (mkNotification room m t.token)), ?_, ?_, ?_, ?_⟩
  · simp [send_message_and_notify, h, unified_response, List.map_map,
      Function.comp_def]
  · simp
  · simp [List.map_map, Function.comp_def, dispatchOne_token, mkNotification,
      TokenRow.token]
  · intro o _
    cases o with
    | success t r => exact Or.inl ⟨r, rfl⟩
    | failure t e => exact Or.inr ⟨e, rfl⟩

/-- Witness for C2 at a concrete database with two tokens and a failing
push service. -/
theorem fanout_one_outcome_per_token_witness :
    ∃ ns, (send_message_and_notify errSend 0 baseDB msgTo1).1.data =
        RespData.notifications ns ∧
      ns.length = baseDB.push_tokens.length ∧
      ns.map NotificationOutcome.token = baseDB.push_tokens.map TokenRow.token ∧
      ∀ o ∈ ns, (∃ r, o = .success o.token r) ∨ (∃ e, o = .failure o.token e) :=
  fanout_one_outcome_per_token errSend 0 baseDB msgTo1 ⟨1, "General"⟩ (by decide)

/-- C8: with a valid room the dispatched messages are exactly one per
push_tokens row in order, each titled with the room name, a colon and space,
and the sender name, with body the request's message text; every registered
token's row — the sender's own rows included — contributes a destination. -/
theorem dispatch_title_body_destinations
    (send : FCMMessage → Except String String) (now : Nat) (db : DB)
    (m : MessageModel) (room : RoomRow)
    (h : db.chat_rooms.find? (fun r => r.id == m.room_id) = some room) :
    (send_message_and_notify send now db m).2.2 =
      db.push_tokens.map (fun t => mkNotification room m t.token) ∧
    (∀ fcm ∈ (send_message_and_notify send now db m).2.2,
      fcm.title = room.name ++ ": " ++ m.sender_name ∧ fcm.body = m.message) ∧
    (∀ t ∈ db.push_tokens, t.user_id = m.sender_id →
      mkNotification room m t.token ∈
        (send_message_and_notify send now db m).2.2) := by
  have htrace : (send_message_and_notify send now db m).2.2 =
      db.push_tokens.map (fun t => mkNotification room m t.token) := by
    simp [send_message_and_notify, h, List.map_map, Function.comp_def]
  refine ⟨htrace, ?_, ?_⟩
  · intro fcm hmem
    rw [htrace] at hmem
    obtain ⟨t, _, rfl⟩ := List.mem_map.mp hmem
    exact ⟨rfl, rfl⟩
  · intro t ht _
    rw [htrace]
    exact List.mem_map_of_mem _ ht

/-- Witness for C8: the sender's own token t1 (user 1) is a destination. -/
theorem dispatch_title_body_destinations_witness :
    (send_message_and_notify errSend 0 baseDB msgTo1).2.2 =
      baseDB.push_tokens.map (fun t => mkNotification ⟨1, "General"⟩ msgTo1 t.token) ∧
    (∀ fcm ∈ (send_message_and_notify errSend 0 baseDB msgTo1).2.2,
      fcm.title = (⟨1, "General"⟩ : RoomRow).name ++ ": " ++ msgTo1.sender_name ∧
      fcm.body = msgTo1.message) ∧
    (∀ t ∈ baseDB.push_tokens, t.user_id = msgTo1.sender_id →
      mkNotification ⟨1, "General"⟩ msgTo1 t.token ∈
        (send_message_and_notify errSend 0 baseDB msgTo1).2.2) :=
  dispatch_title_body_destinations errSend 0 baseDB msgTo1 ⟨1, "General"⟩
    (by decide)

/-- On an existing room, get_messages answers the sorted room view. -/
theorem get_messages_data (db : DB) (rid : Int) (room : RoomRow)
    (h : db.chat_rooms.find? (fun r => r.id == rid) = some room) :
    get_messages db rid = unified_response 0
      ("Messages retrieved successfully from " ++ room.name)
      (.msgs ((messagesQuery db rid).map MessageRow.view)) := by
  simp [get_messages, h]

/-- C3: with a valid room the new messages row is appended and committed for
every push-service behaviour — dispatch outcomes cannot undo it — and
get_messages on the resulting state succeeds and returns the new message. -/
theorem message_persisted_and_retrievable
    (send : FCMMessage → Except String String) (now : Nat) (db : DB)
    (m : MessageModel) (room : RoomRow)
    (h : db.chat_rooms.find? (fun r => r.id == m.room_id) = some room) :
    (send_message_and_notify send now db m).2.1.messages = db.messages ++
      [⟨db.next_message_id, m.room_id, m.sender_id, m.sender_name,
        m.message, now⟩] ∧
    (get_messages (send_message_and_notify send now db m).2.1 m.room_id).status
      = 0 ∧
    ∃ l, (get_messages (send_message_and_notify send now db m).2.1
        m.room_id).data = RespData.msgs l ∧
      (m.sender_id, m.sender_name, m.message, now) ∈ l := by
  have hdb : (send_message_and_notify send now db m).2.1 =
      { db with
        messages := db.messages ++
          [⟨db.next_message_id, m.room_id, m.sender_id, m.sender_name,
            m.message, now⟩],
        next_message_id := db.next_message_id + 1 } := by
    simp [send_message_and_notify, h]
  refine ⟨by rw [hdb], ?_, ?_⟩
  · rw [hdb]
    simp [get_messages, h, unified_response]
  · rw [hdb, get_messages_data _ m.room_id room (by simpa using h)]
    refine ⟨_, rfl, ?_⟩
    have hmem : (⟨db.next_message_id, m.room_id, m.sender_id, m.sender_name,
        m.message, now⟩ : MessageRow) ∈ messagesQuery
          { db with
            messages := db.messages ++
              [⟨db.next_message_id, m.room_id, m.sender_id, m.sender_name,
                m.message, now⟩],
            next_message_id := db.next_message_id + 1 } m.room_id := by
      unfold messagesQuery
      rw [List.mem_mergeSort]
      simp
    exact List.mem_map_of_mem MessageRow.view hmem

/-- Witness for C3: message retrievable though every push send failed. -/
theorem message_persisted_and_retrievable_witness :
    (send_message_and_notify errSend 7 baseDB msgTo1).2.1.messages =
      baseDB.messages ++
      [⟨baseDB.next_message_id, msgTo1.room_id, msgTo1.sender_id,
        msgTo1.sender_name, msgTo1.message, 7⟩] ∧
    (get_messages (send_message_and_notify errSend 7 baseDB msgTo1).2.1
      msgTo1.room_id).status = 0 ∧
    ∃ l, (get_messages (send_message_and_notify errSend 7 baseDB msgTo1).2.1
        msgTo1.room_id).data = RespData.msgs l ∧
      (msgTo1.sender_id, msgTo1.sender_name, msgTo1.message, 7) ∈ l :=
  message_persisted_and_retrievable errSend 7 baseDB msgTo1 ⟨1, "General"⟩
    (by decide)

/-- C7: for an existing room get_messages succeeds with exactly the room's
messages, sorted by non-decreasing timestamp; rows with equal timestamps stay
in table (insertion/rowid) order; a room with no messages yields the empty
list, not an error. -/
theorem get_messages_sorted_stable (db : DB) (rid : Int) (room : RoomRow)
    (h : db.chat_rooms.find? (fun r => r.id == rid) = some room) :
    (get_messages db rid).status = 0 ∧
    (get_messages db rid).data =
      RespData.msgs ((messagesQuery db rid).map MessageRow.view) ∧
    (messagesQuery db rid).Perm
      (db.messages.filter (fun m => m.room_id == rid)) ∧
    List.Pairwise (fun a b => a.timestamp ≤ b.timestamp)
      (messagesQuery db rid) ∧
    (∀ a b : MessageRow, a.timestamp = b.timestamp →
      List.Sublist [a, b] (db.messages.filter (fun m => m.room_id == rid)) →
      List.Sublist [a, b] (messagesQuery db rid)) ∧
    (db.messages.filter (fun m => m.room_id == rid) = [] →
      messagesQuery db rid = []) := by
  have trans : ∀ a b c : MessageRow, decide (a.timestamp ≤ b.timestamp) →
      decide (b.timestamp ≤ c.timestamp) →
      decide (a.timestamp ≤ c.timestamp) := by
    intro a b c hab hbc
    simp only [decide_eq_true_eq] at hab hbc ⊢
    omega
  have total : ∀ a b : MessageRow, decide (a.timestamp ≤ b.timestamp) ||
      decide (b.timestamp ≤ a.timestamp) := by
    intro a b
    simp only [Bool.or_eq_true, decide_eq_true_eq]
    exact Nat.le_total a.timestamp b.timestamp
  refine ⟨by simp [get_messages, h, unified_response],
    by simp [get_messages, h, unified_response], ?_, ?_, ?_, ?_⟩
  · exact List.mergeSort_perm _ _
  · have hs := List.sorted_mergeSort trans total
      (db.messages.filter (fun m => m.room_id == rid))
    exact hs.imp (by simp)
  · intro a b hts hsub
    exact List.pair_sublist_mergeSort trans total
      (by simp [hts]) hsub
  · intro hnil
    unfold messagesQuery
    rw [hnil]
    simp

/-- Witness for C7 at a database with three messages in room 1, two of them
timestamp-tied. -/
def msgsDB : DB :=
  ⟨[⟨1, "General"⟩], [⟨1, "alice", "hash1"⟩], [],
    [⟨1, 1, 1, "alice", "one", 5⟩, ⟨2, 1, 2, "bob", "two", 5⟩,
      ⟨3, 2, 1, "alice", "other room", 1⟩], 2, 1, 4⟩

/-- Witness for C7: get_messages on msgsDB room 1 succeeds, is a sorted
stable permutation of the room-1 rows. -/
theorem get_messages_sorted_stable_witness :
    (get_messages msgsDB 1).status = 0 ∧
    (get_messages msgsDB 1).data =
      RespData.msgs ((messagesQuery msgsDB 1).map MessageRow.view) ∧
    (messagesQuery msgsDB 1).Perm
      (msgsDB.messages.filter (fun m => m.room_id == 1)) ∧
    List.Pairwise (fun a b => a.timestamp ≤ b.timestamp)
      (messagesQuery msgsDB 1) ∧
    (∀ a b : MessageRow, a.timestamp = b.timestamp →
      List.Sublist [a, b] (msgsDB.messages.filter (fun m => m.room_id == 1)) →
      List.Sublist [a, b] (messagesQuery msgsDB 1)) ∧
    (msgsDB.messages.filter (fun m => m.room_id == 1) = [] →
      messagesQuery msgsDB 1 = []) :=
  get_messages_sorted_stable msgsDB 1 ⟨1, "General"⟩ (by decide)

/-- C5: starting from a table respecting token uniqueness, submitting the
same token twice answers status 0 both times and leaves exactly one row
carrying that token. -/
theorem submit_token_twice_one_row (db : DB) (p : PushTokenModel)
    (h : (db.push_tokens.filter (fun r => r.token == p.token)).length ≤ 1) :
    (submit_push_token db p).1.status = 0 ∧
    (submit_push_token (submit_push_token db p).2 p).1.status = 0 ∧
    ((submit_push_token (submit_push_token db p).2 p).2.push_tokens.filter
      (fun r => r.token == p.token)).length = 1 := by
  cases hfind : db.push_tokens.find? (fun r => r.token == p.token) with
  | none =>
    have hnil : db.push_tokens.filter (fun r => r.token == p.token) = [] := by
      rw [List.filter_eq_nil_iff]
      intro x hx
      exact List.find?_eq_none.mp hfind x hx
    have hsecond : ({ db with
        push_tokens := db.push_tokens ++
          [⟨db.next_token_id, p.user_id, p.token⟩],
        next_token_id := db.next_token_id + 1 } : DB).push_tokens.find?
          (fun r => r.token == p.token) =
        some ⟨db.next_token_id, p.user_id, p.token⟩ := by
      simp only [List.find?_append, hfind, Option.none_or]
      simp [List.find?]
    refine ⟨by simp [submit_push_token, hfind, unified_response], ?_, ?_⟩
    · simp [submit_push_token, hfind, hsecond, unified_response]
    · simp [submit_push_token, hfind, hsecond, List.filter_append, hnil]
  | some t =>
    have hone : (db.push_tokens.filter
        (fun r => r.token == p.token)).length = 1 := by
      have hp := List.find?_some hfind
      have hmem : t ∈ db.push_tokens.filter (fun r => r.token == p.token) :=
        List.mem_filter.mpr ⟨List.mem_of_find?_eq_some hfind,
          by simpa using hp⟩
      exact Nat.le_antisymm h (List.length_pos.mpr
        (List.ne_nil_of_mem hmem))
    refine ⟨by simp [submit_push_token, hfind, unified_response], ?_, ?_⟩
    · simp [submit_push_token, hfind, unified_response]
    · simp [submit_push_token, hfind, hone]

/-- Witness for C5: registering token t3 twice into baseDB. -/
theorem submit_token_twice_one_row_witness :
    (submit_push_token baseDB ⟨1, "t3"⟩).1.status = 0 ∧
    (submit_push_token (submit_push_token baseDB ⟨1, "t3"⟩).2 ⟨1, "t3"⟩).1.status
      = 0 ∧
    ((submit_push_token (submit_push_token baseDB ⟨1, "t3"⟩).2
      ⟨1, "t3"⟩).2.push_tokens.filter
        (fun r => r.token == (⟨1, "t3"⟩ : PushTokenModel).token)).length = 1 :=
  submit_token_twice_one_row baseDB ⟨1, "t3"⟩ (by decide)

/-- C10: registering a username that already exists answers status 1 and
leaves the whole database — in particular the users table — unchanged. -/
theorem register_duplicate_username_rejected (hashfn : String → String)
    (db : DB) (user : UserModel) (existing : UserRow)
    (hmem : existing ∈ db.users) (hname : existing.username = user.username) :
    (register hashfn db user).1.status = 1 ∧
    (register hashfn db user).2 = db ∧
    (register hashfn db user).2.users = db.users := by
  cases hfind : db.users.find? (fun r => r.username == user.username) with
  | none =>
    exact absurd (by simpa using List.find?_eq_none.mp hfind existing hmem)
      (by simp [hname])
  | some u =>
    simp [register, hfind, unified_response]

/-- Witness for C10: re-registering alice into baseDB. -/
theorem register_duplicate_username_rejected_witness :
    (register id baseDB ⟨"alice", "pw2"⟩).1.status = 1 ∧
    (register id baseDB ⟨"alice", "pw2"⟩).2 = baseDB ∧
    (register id baseDB ⟨"alice", "pw2"⟩).2.users = baseDB.users :=
  register_duplicate_username_rejected id baseDB ⟨"alice", "pw2"⟩
    ⟨1, "alice", "hash1"⟩ (by decide) (by decide)

/-- Rendering an envelope response is recognised exactly when its status is
0 or 1. -/
theorem isEnvelope_toJson (r : Resp) :
    isEnvelope r.toJson = (r.status == 0 || r.status == 1) := by
  simp [Resp.toJson, isEnvelope]

/-- A date string for the demo counterexample. -/
def demoDate : String := "2025-11-19"

/-- C6 counterexample: the /demo/ endpoint's body is not the uniform
envelope — it is a bare object with fields sum and date. -/
theorem demo_endpoint_not_envelope :
    isEnvelope (get_demo 1 2 demoDate) = false := rfl

/-- C6 amended: every endpoint except /demo/ renders the uniform
envelope with status 0 or 1; /demo/ returns a bare object instead. -/
theorem endpoints_return_envelope_except_demo :
    (∀ hashfn db u, isEnvelope ((register hashfn db u).1.toJson) = true) ∧
    (∀ hashfn db u, isEnvelope ((login hashfn db u).toJson) = true) ∧
    (∀ db p, isEnvelope ((submit_push_token db p).1.toJson) = true) ∧
    (∀ send now db m,
      isEnvelope ((send_message_and_notify send now db m).1.toJson) = true) ∧
    (∀ db, isEnvelope ((get_chat_rooms db).toJson) = true) ∧
    (∀ db rid, isEnvelope ((get_messages db rid).toJson) = true) := by
  refine ⟨?_, ?_, ?_, ?_, ?_, ?_⟩
  · intro hashfn db u
    rw [isEnvelope_toJson]
    cases hfind : db.users.find? (fun r => r.username == u.username) <;>
      simp [register, hfind, unified_response]
  · intro hashfn db u
    rw [isEnvelope_toJson]
    cases hfind : db.users.find? (fun r => r.username == u.username) with
    | none => simp [login, hfind, unified_response]
    | some eu =>
      simp only [login, hfind]
      split <;> simp [unified_response]
  · intro db p
    rw [isEnvelope_toJson]
    cases hfind : db.push_tokens.find? (fun r => r.token == p.token) <;>
      simp [submit_push_token, hfind, unified_response]
  · intro send now db m
    rw [isEnvelope_toJson]
    cases hfind : db.chat_rooms.find? (fun r => r.id == m.room_id) <;>
      simp [send_message_and_notify, hfind, unified_response]
  · intro db
    rw [isEnvelope_toJson]
    by_cases hb :
        (db.chat_rooms.mergeSort fun a b => decide (a.id ≤ b.id)).isEmpty =
          true <;>
      simp [get_chat_rooms, hb, unified_response]
  · intro db rid
    rw [isEnvelope_toJson]
    cases hfind : db.chat_rooms.find? (fun r => r.id == rid) <;>
      simp [get_messages, hfind, unified_response]

/-! Lemmas about create_db seeding. -/

/-- Rows already present survive a seed insertion. -/
theorem mem_insertOrIgnore (rooms : List RoomRow) (s r : RoomRow)
    (h : r ∈ rooms) : r ∈ insertOrIgnore rooms s := by
  unfold insertOrIgnore
  split
  · exact h
  · exact List.mem_append_left _ h

/-- After inserting a seed, a conflicting row for it exists. -/
theorem roomConflict_insertOrIgnore_self (rooms : List RoomRow)
    (s : RoomRow) : roomConflict (insertOrIgnore rooms s) s = true := by
  unfold insertOrIgnore
  split
  · assumption
  · simp [roomConflict, List.any_append]

/-- An existing conflict survives a later seed insertion. -/
theorem roomConflict_mono (rooms : List RoomRow) (s r : RoomRow)
    (h : roomConflict rooms s = true) :
    roomConflict (insertOrIgnore rooms r) s = true := by
  unfold insertOrIgnore
  split
  · exact h
  · simp only [roomConflict, List.any_append] at h ⊢
    simp [h]

/-- INSERT OR IGNORE of a conflicting row changes nothing. -/
theorem insertOrIgnore_of_conflict (rooms : List RoomRow) (s : RoomRow)
    (h : roomConflict rooms s = true) : insertOrIgnore rooms s = rooms := by
  simp [insertOrIgnore, h]

/-- A conflict fact is the existence of a row sharing the id or the name. -/
theorem roomConflict_exists (rooms : List RoomRow) (s : RoomRow)
    (h : roomConflict rooms s = true) :
    ∃ r ∈ rooms, r.id = s.id ∨ r.name = s.name := by
  obtain ⟨r, hr, hor⟩ := List.any_eq_true.mp h
  exact ⟨r, hr, by simpa using hor⟩

/-- The database whose pre-existing room row blocks the seed (1, General). -/
def conflictDB : DB := ⟨[⟨5, "General"⟩], [], [], [], 1, 1, 1⟩

/-- C9 counterexample: on a database already holding a room named General
under id 5, create_db does not produce the seed row (1, General) — the
`INSERT OR IGNORE` is skipped by the UNIQUE name conflict. -/
theorem create_db_missing_seed :
    ¬ ((⟨1, "General"⟩ : RoomRow) ∈ (create_db conflictDB).chat_rooms) := by
  decide

/-- C9 amended: create_db is idempotent and keeps every existing row; for
each seed (i, n) it guarantees a row conflicting with it (same id or same
name) rather than the seed row itself; on an empty chat_rooms table the
three seed rows are inserted exactly. -/
theorem create_db_idempotent_seeds (db : DB) :
    create_db (create_db db) = create_db db ∧
    (∀ r ∈ db.chat_rooms, r ∈ (create_db db).chat_rooms) ∧
    (∀ s ∈ seedRooms, ∃ r ∈ (create_db db).chat_rooms,
      r.id = s.id ∨ r.name = s.name) ∧
    (db.chat_rooms = [] → (create_db db).chat_rooms = seedRooms) := by
  have c3 : roomConflict ((create_db db).chat_rooms) (⟨3, "Random"⟩ : RoomRow)
      = true := by
    simp only [create_db, seedRooms, List.foldl_cons, List.foldl_nil]
    exact roomConflict_insertOrIgnore_self _ _
  have c2 : roomConflict ((create_db db).chat_rooms)
      (⟨2, "Technology"⟩ : RoomRow) = true := by
    simp only [create_db, seedRooms, List.foldl_cons, List.foldl_nil]
    exact roomConflict_mono _ _ _ (roomConflict_insertOrIgnore_self _ _)
  have c1 : roomConflict ((create_db db).chat_rooms) (⟨1, "General"⟩ : RoomRow)
      = true := by
    simp only [create_db, seedRooms, List.foldl_cons, List.foldl_nil]
    exact roomConflict_mono _ _ _
      (roomConflict_mono _ _ _ (roomConflict_insertOrIgnore_self _ _))
  refine ⟨?_, ?_, ?_, ?_⟩
  · show create_db (create_db db) = create_db db
    have hfold : seedRooms.foldl insertOrIgnore ((create_db db).chat_rooms) =
        (create_db db).chat_rooms := by
      simp only [seedRooms, List.foldl_cons, List.foldl_nil]
      rw [insertOrIgnore_of_conflict _ _ c1, insertOrIgnore_of_conflict _ _ c2,
        insertOrIgnore_of_conflict _ _ c3]
    unfold create_db at hfold ⊢
    rw [hfold]
  · intro r hr
    simp only [create_db, seedRooms, List.foldl_cons, List.foldl_nil]
    exact mem_insertOrIgnore _ _ _ (mem_insertOrIgnore _ _ _
      (mem_insertOrIgnore _ _ _ hr))
  · intro s hs
    have hs' : s = (⟨1, "General"⟩ : RoomRow) ∨
        s = (⟨2, "Technology"⟩ : RoomRow) ∨
        s = (⟨3, "Random"⟩ : RoomRow) := by
      simpa [seedRooms] using hs
    rcases hs' with rfl | rfl | rfl
    · exact roomConflict_exists _ _ c1
    · exact roomConflict_exists _ _ c2
    · exact roomConflict_exists _ _ c3
  · intro he
    simp only [create_db]
    rw [he]
    decide

/-- The empty (freshly created) database file. -/
def emptyDB : DB := ⟨[], [], [], [], 1, 1, 1⟩

/-- Witness for amended C9: on the empty database the second run is a no-op
and the table is exactly the three seed rows. -/
theorem create_db_idempotent_seeds_witness :
    create_db (create_db emptyDB) = create_db emptyDB ∧
    (create_db emptyDB).chat_rooms = seedRooms :=
  ⟨(create_db_idempotent_seeds emptyDB).1,
    (create_db_idempotent_seeds emptyDB).2.2.2 rfl⟩

end ChatApp
